import Mathlib

/-!
Shallow embedding of `src/appfinal.py`, a single-script Streamlit monitoring
dashboard: per-column statistics, two-standard-deviation anomaly flagging,
per-variable linear-regression prediction, and the script's top-level control
flow (connection, query, empty-result fallback data, render / hard stop).

Numeric sensor values are modelled as rationals.  The standard deviation
(pandas `.std()`, which uses ddof = 1) lives in `ℝ` via `Real.sqrt`.
Division by zero is Lean's usual junk value `0`; in the two places where the
original produces NaN (std of a single-row or empty column) this junk value
produces the same observable behaviour, namely that no row is flagged.
-/

namespace AppFinal

/-- Sample mean of a column: `df[var].mean()` (line 91). -/
def media (xs : List ℚ) : ℚ := xs.sum / xs.length

/-- Sample variance with ddof = 1, i.e. the square of pandas `df[var].std()`
(line 92).  For a column of length ≤ 1 pandas yields NaN; here the junk value
is `0`, which leads to the same flag behaviour (no row flagged). -/
def varianza (xs : List ℚ) : ℚ :=
  (xs.map fun x => (x - media xs) ^ 2).sum / ((xs.length - 1 : ℕ) : ℚ)

/-- Sample standard deviation `df[var].std()` (line 92).  It lives in `ℝ`
(hence is not executable); the anomaly predicate built from it is made
decidable below through the squared rational characterisation. -/
noncomputable def std (xs : List ℚ) : ℝ := Real.sqrt ((varianza xs : ℚ) : ℝ)

/-- Lower limit `media - 2 * std` (line 93). -/
noncomputable def lim_inf (xs : List ℚ) : ℝ := ((media xs : ℚ) : ℝ) - 2 * std xs

/-- Upper limit `media + 2 * std` (line 94). -/
noncomputable def lim_sup (xs : List ℚ) : ℝ := ((media xs : ℚ) : ℝ) + 2 * std xs

/-- A value of the column is flagged anomalous:
`(df[var] < lim_inf) | (df[var] > lim_sup)` (line 95). -/
def esAnomalo (xs : List ℚ) (v : ℚ) : Prop :=
  (v : ℝ) < lim_inf xs ∨ (v : ℝ) > lim_sup xs

lemma varianza_nonneg (xs : List ℚ) : 0 ≤ varianza xs := by
  unfold varianza
  apply div_nonneg
  · apply List.sum_nonneg
    intro x hx
    obtain ⟨y, _, rfl⟩ := List.mem_map.mp hx
    positivity
  · positivity

/-- The two one-sided comparisons of line 95 are together equivalent to the
spec's formulation `|value - mean| > 2 * std`. -/
lemma esAnomalo_iff_abs (xs : List ℚ) (v : ℚ) :
    esAnomalo xs v ↔ 2 * std xs < |(v : ℝ) - ((media xs : ℚ) : ℝ)| := by
  rw [esAnomalo, lim_inf, lim_sup, lt_abs]
  constructor
  · rintro (h | h)
    · right; linarith
    · left; linarith
  · rintro (h | h)
    · right; linarith
    · left; linarith

/-- Rational (hence decidable) characterisation of the anomaly predicate:
the square-root comparison is equivalent to a squared comparison in `ℚ`. -/
lemma esAnomalo_iff_sq (xs : List ℚ) (v : ℚ) :
    esAnomalo xs v ↔ 4 * varianza xs < (v - media xs) ^ 2 := by
  rw [esAnomalo_iff_abs]
  have hq : (0 : ℝ) ≤ ((varianza xs : ℚ) : ℝ) := by
    exact_mod_cast varianza_nonneg xs
  have h2 : 2 * std xs = Real.sqrt (4 * ((varianza xs : ℚ) : ℝ)) := by
    rw [std, show (4 : ℝ) = 2 ^ 2 by norm_num, Real.sqrt_mul (by positivity),
      Real.sqrt_sq (by norm_num : (0 : ℝ) ≤ 2)]
  rw [h2]
  rcases (abs_nonneg ((v : ℝ) - ((media xs : ℚ) : ℝ))).lt_or_eq with hc | hc
  · rw [Real.sqrt_lt' hc, sq_abs]
    constructor
    · intro h; exact_mod_cast h
    · intro h; exact_mod_cast h
  · constructor
    · intro h
      exact absurd (hc ▸ h) (not_lt.mpr (Real.sqrt_nonneg _))
    · intro h
      have hvm : ((v - media xs : ℚ) : ℝ) = 0 := by
        have := abs_eq_zero.mp hc.symm
        push_cast
        linarith [this]
      have hvm' : (v - media xs : ℚ) = 0 := by exact_mod_cast hvm
      rw [hvm'] at h
      simp at h
      exact absurd h (not_lt.mpr (by nlinarith [varianza_nonneg xs]))

instance (xs : List ℚ) (v : ℚ) : Decidable (esAnomalo xs v) :=
  decidable_of_iff (4 * varianza xs < (v - media xs) ^ 2) (esAnomalo_iff_sq xs v).symm

/-- The boolean flag column `df[f"Anómalo {var}"]` (line 95), one flag per row. -/
def flagsCol (xs : List ℚ) : List Bool :=
  xs.map fun v => decide (esAnomalo xs v)

/-- The dataframe: the renamed `_time` column `Tiempo` plus the five sensor
value columns (lines 44, 53-61, 68). -/
structure Df where
  Tiempo : List String
  temperatura : List ℚ
  humedad : List ℚ
  vibracion : List ℚ
  corriente : List ℚ
  voltaje : List ℚ
deriving DecidableEq

/-- The list `variables` of line 77 (`variables` is reserved in Lean, hence the name). -/
def listaVariables : List String :=
  ["temperatura", "humedad", "vibracion", "corriente", "voltaje"]

/-- Column access `df[var]` for the five monitored variables. -/
def columna (df : Df) : String → List ℚ
  | "temperatura" => df.temperatura
  | "humedad" => df.humedad
  | "vibracion" => df.vibracion
  | "corriente" => df.corriente
  | "voltaje" => df.voltaje
  | _ => []

/-- `len(df)`: the number of rows of the dataframe. -/
def nRows (df : Df) : ℕ := df.Tiempo.length

/-- One record of the `anomalias` report list (lines 100-105). -/
structure Anomalia where
  Fecha : String
  Variable : String
  Valor : ℚ
  Descripcion : String
deriving DecidableEq

/-- The report records contributed by one variable: the rows whose flag is
set (`df[df[f"Anómalo {var}"]]`, line 98), iterated in row order, each one
copying `row["Tiempo"]` and `row[var]` (lines 99-105). -/
def anomaliasCol (tiempo : List String) (nombreVar : String) (xs : List ℚ) :
    List Anomalia :=
  ((tiempo.zip xs).filter fun p => decide (esAnomalo xs p.2)).map fun p =>
    { Fecha := p.1, Variable := nombreVar, Valor := p.2,
      Descripcion := "Valor fuera de rango normal" }

/-- The dataframe after the anomaly-detection loop: the original data plus
the five added boolean columns `Anómalo {var}`, in loop order. -/
structure DfConFlags where
  datos : Df
  anomalo : List (String × List Bool)
deriving DecidableEq

/-- The anomaly-detection loop (lines 89-105): for each variable, add the
flag column and append the flagged rows to the report list. -/
def deteccionAnomalias (df : Df) : DfConFlags × List Anomalia :=
  ({ datos := df,
     anomalo := listaVariables.map fun v => (v, flagsCol (columna df v)) },
   (listaVariables.map fun v => anomaliasCol df.Tiempo v (columna df v)).flatten)

/-- `df[var].min()` (line 81); junk value 0 for an empty column (pandas: NaN). -/
def minimoCol (xs : List ℚ) : ℚ := xs.min?.getD 0

/-- `df[var].max()` (line 82); junk value 0 for an empty column (pandas: NaN). -/
def maximoCol (xs : List ℚ) : ℚ := xs.max?.getD 0

/-- The general-statistics row of metrics (lines 77-83): per variable its
mean, minimum and maximum. -/
def estadisticasDe (df : Df) : List (String × ℚ × ℚ × ℚ) :=
  listaVariables.map fun v =>
    (v, media (columna df v), minimoCol (columna df v), maximoCol (columna df v))

/-- The hardcoded date range `pd.date_range("2025-10-01", periods=10, freq="D")`
(line 52). -/
def fechas : List String :=
  ["2025-10-01", "2025-10-02", "2025-10-03", "2025-10-04", "2025-10-05",
   "2025-10-06", "2025-10-07", "2025-10-08", "2025-10-09", "2025-10-10"]

/-- The hardcoded fallback sample dataset (lines 52-61). -/
def datosEjemplo : Df :=
  { Tiempo := fechas
    temperatura := [28, 29, 30, 32, 33, 31, 30, 29, 28, 27]
    humedad := [55, 58, 60, 62, 59, 61, 63, 65, 60, 58]
    vibracion := [1.2, 1.3, 1.5, 1.7, 1.8, 1.6, 1.5, 1.4, 1.3, 1.2]
    corriente := [5.5, 5.8, 6.0, 6.2, 6.5, 6.1, 5.9, 5.8, 5.6, 5.7]
    voltaje := [230, 231, 229, 228, 232, 233, 230, 229, 231, 230] }

/-- The fitted model of `sklearn.linear_model.LinearRegression` for one
feature: slope `coef_` and `intercept_`. -/
structure ModeloLineal where
  coef : ℚ
  intercept : ℚ
deriving DecidableEq

/-- Modelled from sklearn: `LinearRegression().fit(X, y)` with a single
feature centers the data and solves least squares, giving the slope
`Σ (xᵢ - x̄)(yᵢ - ȳ) / Σ (xᵢ - x̄)²`.  In the degenerate case the lstsq
minimum-norm solution is slope 0, which the junk value 0/0 = 0 reproduces. -/
def coefLR (X y : List ℚ) : ℚ :=
  ((X.zip y).map fun p => (p.1 - media X) * (p.2 - media y)).sum
    / (X.map fun x => (x - media X) ^ 2).sum

/-- `LinearRegression().fit(X, y)` (lines 122-123): slope as above and
intercept `ȳ - coef · x̄`. -/
def fitLR (X y : List ℚ) : ModeloLineal :=
  { coef := coefLR X y, intercept := media y - coefLR X y * media X }

/-- `modelo.predict([[t]])[0]`: evaluate the fitted line at `t`. -/
def predictLR (m : ModeloLineal) (t : ℚ) : ℚ := m.intercept + m.coef * t

/-- The regressor column `X = pd.DataFrame(range(len(df)))` (line 120):
the row indices `0, 1, ..., n-1` as rationals. -/
def rangoIndices (n : ℕ) : List ℚ := (List.range n).map fun i : ℕ => (i : ℚ)

/-- One iteration of the prediction loop (lines 119-125): fit the variable's
column against the row indices and predict at `len(df) + 1` (line 124). -/
def prediccionVar (df : Df) (v : String) : ℚ :=
  predictLR (fitLR (rangoIndices (nRows df)) (columna df v)) ((nRows df : ℚ) + 1)

/-- The textbook ordinary-least-squares slope of `ys` against the row indices
`0..n-1`, written from the spec's words ("ordinary least-squares line fit
against row index") via the uncentered normal-equations closed form. -/
def pendienteSpec (ys : List ℚ) : ℚ :=
  ((ys.length : ℚ) * (((rangoIndices ys.length).zip ys).map fun p => p.1 * p.2).sum
      - (rangoIndices ys.length).sum * ys.sum)
    / ((ys.length : ℚ) * ((rangoIndices ys.length).map fun x => x ^ 2).sum
      - (rangoIndices ys.length).sum ^ 2)

/-- The ordinary-least-squares line fitted to `ys` against row indices
`0..n-1`, evaluated at `t` (spec-side definition for claim C1). -/
def olsSpec (ys : List ℚ) (t : ℚ) : ℚ :=
  (ys.sum - pendienteSpec ys * (rangoIndices ys.length).sum) / (ys.length : ℚ)
    + pendienteSpec ys * t

/-- A message shown to the user (`st.success` / `st.error` / `st.warning`). -/
inductive Mensaje where
  | success (m : String) : Mensaje
  | error (m : String) : Mensaje
  | warning (m : String) : Mensaje
deriving DecidableEq

/-- Outcome of the connection block (lines 28-33): either the client and its
`query_api` are established, or the constructor raised with some message. -/
inductive Conexion where
  | exitosa : Conexion
  | falla (e : String) : Conexion

/-- Outcome of `query_api.query_data_frame(query)` when `query_api` exists
(line 48): a dataframe, or a raised exception with some message. -/
inductive ResultadoQuery where
  | datos (tables : Df) : ResultadoQuery
  | excepcion (e : String) : ResultadoQuery

/-- Everything rendered after a dataframe has been obtained (lines 68-129):
the displayed data, the statistics metrics, the flagged dataframe, the
anomaly report and its success/error message, and the predictions. -/
structure Render where
  datos : Df
  estadisticas : List (String × ℚ × ℚ × ℚ)
  dfFlags : DfConFlags
  anomalias : List Anomalia
  mensajeAnomalias : Mensaje
  predicciones : List (String × ℚ)

/-- Render the page from the dataframe `df` (lines 68-129). -/
def renderiza (df : Df) : Render :=
  { datos := df
    estadisticas := estadisticasDe df
    dfFlags := (deteccionAnomalias df).1
    anomalias := (deteccionAnomalias df).2
    mensajeAnomalias :=
      if (deteccionAnomalias df).2.isEmpty then
        Mensaje.success "✅ No se detectaron anomalías"
      else Mensaje.error "🚨 Se detectaron anomalías en las lecturas"
    predicciones := listaVariables.map fun v => (v, prediccionVar df v) }

/-- The text of the Python `NameError` raised at line 48 when the connection
block failed, so that `query_api` was never assigned (Python renders it as
`name 'query_api' is not defined`). -/
def mensajeNameError : String := "NameError: name query_api is not defined"

/-- The whole script, as a function of the connection outcome and of what the
query would return: the list of messages shown, and the rendered page
(`none` when `st.stop()` aborts the run, line 66).

When the connection block raises (lines 28-33) the error is shown and the
script continues; line 48 then raises `NameError` because `query_api` was
never assigned, which the `except` of line 64 catches: a second error is
shown and the script stops.  When the connection is established: a query
exception is shown and stops the script (lines 64-66); an empty result warns
and substitutes the fallback dataset (lines 49-61); otherwise the query's
dataframe is used (line 63). -/
def runScript (conn : Conexion) (q : ResultadoQuery) : List Mensaje × Option Render :=
  match conn with
  | Conexion.falla e =>
      ([Mensaje.error ("❌ Error al conectar con InfluxDB: " ++ e),
        Mensaje.error ("❌ Error al consultar datos: " ++ mensajeNameError)], none)
  | Conexion.exitosa =>
      match q with
      | ResultadoQuery.excepcion e =>
          ([Mensaje.success "✅ Conexión exitosa a InfluxDB",
            Mensaje.error ("❌ Error al consultar datos: " ++ e)], none)
      | ResultadoQuery.datos tables =>
          if nRows tables = 0 then
            ([Mensaje.success "✅ Conexión exitosa a InfluxDB",
              Mensaje.warning "⚠️ No se encontraron datos en InfluxDB. Se usarán datos simulados."],
             some (renderiza datosEjemplo))
          else
            ([Mensaje.success "✅ Conexión exitosa a InfluxDB"],
             some (renderiza tables))

/-- The fixed text of the Flux query before the interpolated bucket name
(line 38-39). -/
def qParte1 : String := "\nfrom(bucket: \""

/-- The fixed text of the Flux query after the interpolated bucket name
(lines 39-45). -/
def qParte2 : String :=
  "\")\n  |> range(start: -7d)\n  |> filter(fn: (r) => r[\"_measurement\"] == \"sensores\")\n  |> filter(fn: (r) => r[\"_field\"] =~ /temperatura|humedad|vibracion|corriente|voltaje/)\n  |> pivot(rowKey:[\"_time\"], columnKey: [\"_field\"], valueColumn: \"_value\")\n  |> keep(columns: [\"_time\", \"temperatura\", \"humedad\", \"vibracion\", \"corriente\", \"voltaje\"])\n"

/-- The query f-string of lines 38-45, as a function of the four
environment configuration values of lines 20-23; only `bucket` occurs in
the template. -/
def consulta (url token org bucket : String) : String :=
  qParte1 ++ bucket ++ qParte2

/-- A two-row dataframe with `temperatura = [0, 1]`, used as a concrete
input for settling claim C1. -/
def dfC1 : Df :=
  { Tiempo := ["r0", "r1"], temperatura := [0, 1], humedad := [0, 0],
    vibracion := [0, 0], corriente := [0, 0], voltaje := [0, 0] }

/-- `dfC1` with a different `humedad` column (same rows, same `temperatura`). -/
def dfC7 : Df := { dfC1 with humedad := [9, 9] }

/-- A query result with zero rows. -/
def dfVacio : Df :=
  { Tiempo := [], temperatura := [], humedad := [], vibracion := [],
    corriente := [], voltaje := [] }

/-- An 11-row dataframe whose `temperatura` column has one clear outlier
(mean 10/11, sample variance 10/1.1, the value 10 exceeds the upper limit). -/
def dfOutlier : Df :=
  { Tiempo := ["t01", "t02", "t03", "t04", "t05", "t06", "t07", "t08", "t09",
               "t10", "t11"]
    temperatura := [0, 0, 0, 0, 0, 0, 0, 0, 0, 0, 10]
    humedad := [0, 0, 0, 0, 0, 0, 0, 0, 0, 0, 0]
    vibracion := [0, 0, 0, 0, 0, 0, 0, 0, 0, 0, 0]
    corriente := [0, 0, 0, 0, 0, 0, 0, 0, 0, 0, 0]
    voltaje := [0, 0, 0, 0, 0, 0, 0, 0, 0, 0, 0] }

lemma rangoIndices_length (n : ℕ) : (rangoIndices n).length = n := by
  rw [rangoIndices, List.length_map, List.length_range]

lemma sum_map_sub_sq (a : ℚ) (xs : List ℚ) :
    (xs.map fun x => (x - a) ^ 2).sum
      = (xs.map fun x => x ^ 2).sum - 2 * a * xs.sum + (xs.length : ℚ) * a ^ 2 := by
  induction xs with
  | nil => simp
  | cons x xs ih =>
    simp only [List.map_cons, List.sum_cons, List.length_cons, ih]
    push_cast
    ring

lemma sum_zip_sub (a b : ℚ) (xs ys : List ℚ) (h : xs.length = ys.length) :
    ((xs.zip ys).map fun p => (p.1 - a) * (p.2 - b)).sum
      = ((xs.zip ys).map fun p => p.1 * p.2).sum - a * ys.sum - b * xs.sum
        + (xs.length : ℚ) * (a * b) := by
  induction xs generalizing ys with
  | nil =>
    cases ys with
    | nil => simp
    | cons y ys => simp at h
  | cons x xs ih =>
    cases ys with
    | nil => simp at h
    | cons y ys =>
      have h' : xs.length = ys.length := by simpa using h
      simp only [List.zip_cons_cons, List.map_cons, List.sum_cons,
        List.length_cons, ih ys h']
      push_cast
      ring

lemma div_div_div_same {n : ℚ} (hn : n ≠ 0) (a b : ℚ) :
    a / n / (b / n) = a / b := by
  rcases eq_or_ne b 0 with hb | hb
  · simp [hb]
  · field_simp

/-- The slope computed by centering (as sklearn does) agrees with the
uncentered normal-equations closed form of `pendienteSpec`. -/
lemma coefLR_rango (ys : List ℚ) :
    coefLR (rangoIndices ys.length) ys = pendienteSpec ys := by
  rcases Nat.eq_zero_or_pos ys.length with h0 | hpos
  · have hys : ys = [] := List.length_eq_zero.mp h0
    subst hys
    simp [coefLR, pendienteSpec, rangoIndices, media]
  · have hn : ((ys.length : ℕ) : ℚ) ≠ 0 := Nat.cast_ne_zero.mpr hpos.ne'
    rw [coefLR, pendienteSpec,
      sum_zip_sub _ _ _ _ (by rw [rangoIndices_length]), sum_map_sub_sq]
    simp only [media, rangoIndices_length]
    generalize hsxy : (((rangoIndices ys.length).zip ys).map fun p => p.1 * p.2).sum = sxy
    generalize hsxx : ((rangoIndices ys.length).map fun x => x ^ 2).sum = sxx
    generalize hsx : (rangoIndices ys.length).sum = sx
    generalize hsy : ys.sum = sy
    generalize hcn : ((ys.length : ℕ) : ℚ) = n
    rw [hcn] at hn
    have e1 : sxy - sx / n * sy - sy / n * sx + n * (sx / n * (sy / n))
        = (n * sxy - sx * sy) / n := by field_simp; ring
    have e2 : sxx - 2 * (sx / n) * sx + n * (sx / n) ^ 2
        = (n * sxx - sx ^ 2) / n := by field_simp; ring
    rw [e1, e2, div_div_div_same hn]

/-- The code's fitted model, evaluated anywhere, agrees with the spec-side
ordinary-least-squares line `olsSpec`. -/
lemma fit_eq_spec (ys : List ℚ) (t : ℚ) :
    predictLR (fitLR (rangoIndices ys.length) ys) t = olsSpec ys t := by
  simp only [predictLR, fitLR, olsSpec, coefLR_rango, media, rangoIndices_length]
  ring

lemma lookup_map_fn {β : Type} (f : String → β) (vs : List String) (v : String) :
    (vs.map fun u => (u, f u)).lookup v = if v ∈ vs then some (f v) else none := by
  induction vs with
  | nil => simp
  | cons u vs ih =>
    by_cases h : v = u
    · subst h
      simp [List.lookup]
    · simp [List.lookup, ih, h, beq_false_of_ne h]

lemma flagsCol_length (xs : List ℚ) : (flagsCol xs).length = xs.length := by
  rw [flagsCol, List.length_map]

/-- C3: for every variable column, a row is flagged anomalous for that
variable if and only if the absolute difference between its value and the
column's sample mean strictly exceeds two times the column's standard
deviation (computed over the same column). -/
theorem c3_flag_sii_dos_std (xs : List ℚ) (i : Fin xs.length) :
    (flagsCol xs).get (Fin.cast (flagsCol_length xs).symm i) = true
      ↔ |((xs.get i : ℚ) : ℝ) - ((media xs : ℚ) : ℝ)| > 2 * std xs := by
  have hget : (flagsCol xs).get (Fin.cast (flagsCol_length xs).symm i)
      = decide (esAnomalo xs (xs.get i)) := by
    simp [flagsCol]
  rw [hget, decide_eq_true_eq, esAnomalo_iff_abs]

/-- C1, counterexample: on a two-row dataframe with `temperatura = [0, 1]`
the displayed prediction (the fitted line evaluated at `len(df) + 1 = 3`,
which is 3) differs from the ordinary-least-squares line evaluated at row
index `n = 2` (which is 2), refuting the claim as stated. -/
theorem c1_contraejemplo :
    prediccionVar dfC1 "temperatura"
      ≠ olsSpec (columna dfC1 "temperatura") ((nRows dfC1 : ℚ)) := by
  with_unfolding_all decide

/-- C1, amended: the displayed prediction for a variable equals the
ordinary-least-squares line fitted to that variable's values against row
indices `0..n-1`, evaluated at row index `n + 1` (the code passes
`len(df) + 1` to `predict`), i.e. two steps past the last row. -/
theorem c1_prediccion_en_n_mas_1 (df : Df) (v : String)
    (h : nRows df = (columna df v).length) :
    prediccionVar df v = olsSpec (columna df v) ((nRows df : ℚ) + 1) := by
  rw [prediccionVar, h]
  exact fit_eq_spec (columna df v) _

/-- C1, witness for the amended theorem at the concrete dataframe `dfC1`. -/
theorem c1_prediccion_witness :
    nRows dfC1 = (columna dfC1 "temperatura").length
    ∧ prediccionVar dfC1 "temperatura"
        = olsSpec (columna dfC1 "temperatura") ((nRows dfC1 : ℚ) + 1) :=
  ⟨rfl, c1_prediccion_en_n_mas_1 dfC1 "temperatura" rfl⟩

/-- C2, counterexample: when the connection constructor raises, the script
does not render anything — in particular it does not continue with the
fallback dataset: the page outcome is `none` (hard stop), because line 48
raises `NameError` (`query_api` undefined) which the query `except` catches
and follows with `st.stop()`. -/
theorem c2_contraejemplo :
    (runScript (Conexion.falla "connection refused") (ResultadoQuery.datos dfC1)).2 = none
    ∧ (runScript (Conexion.falla "connection refused") (ResultadoQuery.datos dfC1)).2
        ≠ some (renderiza datosEjemplo) :=
  ⟨rfl, fun h => Option.noConfusion h⟩

/-- C2, amended: if establishing the database connection fails, the failure
is shown to the user as a message, but the program does not substitute the
fallback dataset: the query step then fails because `query_api` was never
assigned, a second error message is shown, and execution hard-stops. -/
theorem c2_conexion_falla_detiene (e : String) (q : ResultadoQuery) :
    (runScript (Conexion.falla e) q).1
      = [Mensaje.error ("❌ Error al conectar con InfluxDB: " ++ e),
         Mensaje.error ("❌ Error al consultar datos: " ++ mensajeNameError)]
    ∧ (runScript (Conexion.falla e) q).2 = none :=
  ⟨rfl, rfl⟩

/-- C4: whenever the query succeeds but returns zero rows, the program warns
and uses the hardcoded fallback sample dataset (10 rows dated from
2025-10-01) for all subsequent display, statistics, anomaly flagging and
prediction — the whole rendered page is the one computed from
`datosEjemplo`. -/
theorem c4_resultado_vacio_usa_fallback (tables : Df) (h : nRows tables = 0) :
    runScript Conexion.exitosa (ResultadoQuery.datos tables)
      = ([Mensaje.success "✅ Conexión exitosa a InfluxDB",
          Mensaje.warning "⚠️ No se encontraron datos en InfluxDB. Se usarán datos simulados."],
         some (renderiza datosEjemplo))
    ∧ nRows datosEjemplo = 10 ∧ datosEjemplo.Tiempo.head? = some "2025-10-01" := by
  refine ⟨?_, rfl, rfl⟩
  simp [runScript, h]

/-- C4, witness: the empty query result takes the fallback branch. -/
theorem c4_witness :
    nRows dfVacio = 0
    ∧ (runScript Conexion.exitosa (ResultadoQuery.datos dfVacio)
        = ([Mensaje.success "✅ Conexión exitosa a InfluxDB",
            Mensaje.warning "⚠️ No se encontraron datos en InfluxDB. Se usarán datos simulados."],
           some (renderiza datosEjemplo))
      ∧ nRows datosEjemplo = 10 ∧ datosEjemplo.Tiempo.head? = some "2025-10-01") :=
  ⟨rfl, c4_resultado_vacio_usa_fallback dfVacio rfl⟩

/-- C5: if executing the query raises an exception, the error is shown as a
message and execution hard-stops — no page (dataframe display, statistics,
anomaly detection or prediction) is rendered. -/
theorem c5_excepcion_detiene (e : String) :
    runScript Conexion.exitosa (ResultadoQuery.excepcion e)
      = ([Mensaje.success "✅ Conexión exitosa a InfluxDB",
          Mensaje.error ("❌ Error al consultar datos: " ++ e)], none) :=
  rfl

set_option maxRecDepth 100000 in
/-- C6: for every configuration, the query string is independent of the
URL, token and organization (only the bucket is interpolated, between the
two fixed template parts), and the fixed tail contains the 7-day window
`range(start: -7d)`, the fixed field-set filter naming exactly the five
variables, and the fixed `keep` column list. -/
theorem c6_consulta_fija (url token org bucket url2 token2 org2 : String) :
    consulta url token org bucket = consulta url2 token2 org2 bucket
    ∧ consulta url token org bucket = qParte1 ++ bucket ++ qParte2
    ∧ (∃ l r : String, qParte2 = l ++ "range(start: -7d)" ++ r)
    ∧ (∃ l r : String,
        qParte2 = l ++ "filter(fn: (r) => r[\"_field\"] =~ /temperatura|humedad|vibracion|corriente|voltaje/)" ++ r)
    ∧ (∃ l r : String,
        qParte2 = l ++ "keep(columns: [\"_time\", \"temperatura\", \"humedad\", \"vibracion\", \"corriente\", \"voltaje\"])" ++ r) := by
  refine ⟨rfl, rfl,
    ⟨"\")\n  |> ",
     "\n  |> filter(fn: (r) => r[\"_measurement\"] == \"sensores\")\n  |> filter(fn: (r) => r[\"_field\"] =~ /temperatura|humedad|vibracion|corriente|voltaje/)\n  |> pivot(rowKey:[\"_time\"], columnKey: [\"_field\"], valueColumn: \"_value\")\n  |> keep(columns: [\"_time\", \"temperatura\", \"humedad\", \"vibracion\", \"corriente\", \"voltaje\"])\n",
     by with_unfolding_all rfl⟩,
    ⟨"\")\n  |> range(start: -7d)\n  |> filter(fn: (r) => r[\"_measurement\"] == \"sensores\")\n  |> ",
     "\n  |> pivot(rowKey:[\"_time\"], columnKey: [\"_field\"], valueColumn: \"_value\")\n  |> keep(columns: [\"_time\", \"temperatura\", \"humedad\", \"vibracion\", \"corriente\", \"voltaje\"])\n",
     by with_unfolding_all rfl⟩,
    ⟨"\")\n  |> range(start: -7d)\n  |> filter(fn: (r) => r[\"_measurement\"] == \"sensores\")\n  |> filter(fn: (r) => r[\"_field\"] =~ /temperatura|humedad|vibracion|corriente|voltaje/)\n  |> pivot(rowKey:[\"_time\"], columnKey: [\"_field\"], valueColumn: \"_value\")\n  |> ",
     "\n",
     by with_unfolding_all rfl⟩⟩

/-- C7: anomaly flags and the trend prediction are computed independently
per variable: for two dataframes with the same number of rows that agree on
column `v`, the stored flag column for `v` and the predicted next value for
`v` are identical, regardless of the other columns. -/
theorem c7_independencia_por_columna (df1 df2 : Df) (v : String)
    (hrows : nRows df1 = nRows df2)
    (hcol : columna df1 v = columna df2 v) :
    (deteccionAnomalias df1).1.anomalo.lookup v
      = (deteccionAnomalias df2).1.anomalo.lookup v
    ∧ (renderiza df1).predicciones.lookup v
      = (renderiza df2).predicciones.lookup v := by
  have hpred : prediccionVar df1 v = prediccionVar df2 v := by
    rw [prediccionVar, prediccionVar, hrows, hcol]
  constructor
  · show (listaVariables.map fun u => (u, flagsCol (columna df1 u))).lookup v
      = (listaVariables.map fun u => (u, flagsCol (columna df2 u))).lookup v
    rw [lookup_map_fn, lookup_map_fn, hcol]
  · show (listaVariables.map fun u => (u, prediccionVar df1 u)).lookup v
      = (listaVariables.map fun u => (u, prediccionVar df2 u)).lookup v
    rw [lookup_map_fn, lookup_map_fn, hpred]

/-- C7, witness: two concrete dataframes differing in `humedad` but agreeing
on `temperatura` get the same flags and prediction for `temperatura`. -/
theorem c7_witness :
    dfC1.humedad ≠ dfC7.humedad
    ∧ nRows dfC1 = nRows dfC7
    ∧ columna dfC1 "temperatura" = columna dfC7 "temperatura"
    ∧ ((deteccionAnomalias dfC1).1.anomalo.lookup "temperatura"
        = (deteccionAnomalias dfC7).1.anomalo.lookup "temperatura"
      ∧ (renderiza dfC1).predicciones.lookup "temperatura"
        = (renderiza dfC7).predicciones.lookup "temperatura") :=
  ⟨by with_unfolding_all decide, rfl, rfl,
   c7_independencia_por_columna dfC1 dfC7 "temperatura" rfl rfl⟩

/-- C8: on the hardcoded fallback dataset the anomaly detection flags no
row for any variable, so the no-anomalies success path is taken. -/
theorem c8_fallback_sin_anomalias :
    (renderiza datosEjemplo).anomalias = []
    ∧ (renderiza datosEjemplo).mensajeAnomalias
        = Mensaje.success "✅ No se detectaron anomalías" := by
  constructor
  · with_unfolding_all rfl
  · with_unfolding_all rfl

/-- C9: if every value in a variable's column is equal (standard deviation
zero, including the single-row case), no row of that column is flagged
anomalous. -/
theorem c9_columna_constante_sin_flags (xs : List ℚ) (c : ℚ)
    (hconst : ∀ x ∈ xs, x = c) :
    flagsCol xs = List.replicate xs.length false := by
  rw [← flagsCol_length xs, List.eq_replicate_length]
  intro b hb
  obtain ⟨x, hx, rfl⟩ := List.mem_map.mp hb
  rw [decide_eq_false_iff_not, esAnomalo_iff_sq]
  have hne : xs ≠ [] := List.ne_nil_of_mem hx
  have hn : ((xs.length : ℕ) : ℚ) ≠ 0 :=
    Nat.cast_ne_zero.mpr (List.length_pos.mpr hne).ne'
  have hmedia : media xs = c := by
    rw [media, List.sum_eq_card_nsmul xs c hconst, nsmul_eq_mul,
      mul_div_cancel_left₀ _ hn]
  rw [hconst x hx, hmedia, sub_self]
  exact not_lt.mpr (by nlinarith [varianza_nonneg xs])

/-- C9, witness: the single-row constant column is not flagged. -/
theorem c9_witness :
    (∀ x ∈ ([42] : List ℚ), x = 42)
    ∧ flagsCol ([42] : List ℚ) = List.replicate 1 false :=
  ⟨by with_unfolding_all decide, c9_columna_constante_sin_flags [42] 42 (by with_unfolding_all decide)⟩

/-- C10: the anomaly-detection step only adds the flag columns — the
timestamp column and the five sensor value columns are unchanged — and every
anomaly report row copies its timestamp and value from the dataframe. -/
theorem c10_deteccion_no_modifica (df : Df) :
    (deteccionAnomalias df).1.datos = df
    ∧ ∀ a ∈ (deteccionAnomalias df).2,
        (a.Fecha, a.Valor) ∈ df.Tiempo.zip (columna df a.Variable) := by
  refine ⟨rfl, ?_⟩
  intro a ha
  simp only [deteccionAnomalias] at ha
  rw [List.mem_flatten] at ha
  obtain ⟨l, hl, hal⟩ := ha
  obtain ⟨v, hv, rfl⟩ := List.mem_map.mp hl
  rw [anomaliasCol] at hal
  obtain ⟨p, hp, rfl⟩ := List.mem_map.mp hal
  simpa using List.mem_of_mem_filter hp

/-- C10, witness: a concrete dataframe with one flagged outlier row whose
report record copies the row's timestamp and value. -/
theorem c10_witness :
    (deteccionAnomalias dfOutlier).1.datos = dfOutlier
    ∧ Anomalia.mk "t11" "temperatura" 10 "Valor fuera de rango normal"
        ∈ (deteccionAnomalias dfOutlier).2
    ∧ ("t11", (10 : ℚ)) ∈ dfOutlier.Tiempo.zip (columna dfOutlier "temperatura") :=
  ⟨(c10_deteccion_no_modifica dfOutlier).1,
   by with_unfolding_all decide,
   (c10_deteccion_no_modifica dfOutlier).2
     (Anomalia.mk "t11" "temperatura" 10 "Valor fuera de rango normal")
     (by with_unfolding_all decide)⟩

end AppFinal
